import Mathlib

/-!
Verification development for the numerical core of the `pytorch-cv` model zoo.

Embedded components (translated from the repository sources):
  * `MaskTargetGenerator.forward`  (src/model/models_zoo/mask_rcnn/rcnn_target.py)
  * `SSD.__init__` configuration checks and `SSD.forward`  (src/model/models_zoo/ssd/ssd.py)

Tensors are modelled as nested lists of exact rationals (`Rat` stands for the
floating-point values; every operation the claims exercise is arithmetic and
comparison, faithfully mirrored over `Rat`).  Operators that the sources import
from modules not present under `src/` (`roi_align` from `model.ops`, `box_nms`
from `model.module.nms`) are modelled from the specification and marked as such
in their doc comments.
-/

/-! ## Mask Target Generator (rcnn_target.py) -/

/-- A 2-D grid of values, e.g. a `(MS, MS)` mask target or a `(H, W)` mask. -/
abbrev Grid := List (List Rat)

/-- A box `(x1, y1, x2, y2)` in image coordinates. -/
abbrev Box := Rat × Rat × Rat × Rat

/-- Maximum of two rationals by comparison (kernel-reducible form of `max`). -/
def rmax (a b : Rat) : Rat := if a ≤ b then b else a

/-- Minimum of two rationals by comparison (kernel-reducible form of `min`). -/
def rmin (a b : Rat) : Rat := if a ≤ b then a else b

/-- Minimum of two naturals by comparison (kernel-reducible form of `min`). -/
def nmin (a b : Nat) : Nat := if a ≤ b then a else b

/-- Value of a mask at integer pixel coordinates `(y, x)`; out-of-range reads give 0
(used by the bilinear interpolation of the modelled ROI-align). -/
def maskAt (m : Grid) (y x : Nat) : Rat := (m.getD y []).getD x 0

/-- Modelled from the spec: one bilinear sample of the ROI-align operator
(`roi_align` is imported from `model.ops`, which is not under `src/`).  The spec
defines ROI-align as "bilinear resampling of a feature/mask map into a fixed-size
grid aligned to a ROI"; this is the standard bilinear interpolation at a real
coordinate `(y, x)` with zero outside the `[-1, h] × [-1, w]` support and with
clamping at the borders. -/
def bilinearSample (m : Grid) (y x : Rat) : Rat :=
  let h : Nat := m.length
  let w : Nat := (m.headD []).length
  if h = 0 ∨ w = 0 then 0
  else if y < -1 ∨ y > (h : Rat) ∨ x < -1 ∨ x > (w : Rat) then 0
  else
    let y2 := rmax y 0
    let x2 := rmax x 0
    let yLow : Nat := nmin y2.floor.toNat (h - 1)
    let xLow : Nat := nmin x2.floor.toNat (w - 1)
    let yHigh : Nat := nmin (yLow + 1) (h - 1)
    let xHigh : Nat := nmin (xLow + 1) (w - 1)
    let yr : Rat := if yLow = h - 1 then (yLow : Rat) else y2
    let xr : Rat := if xLow = w - 1 then (xLow : Rat) else x2
    let ly := yr - (yLow : Rat)
    let lx := xr - (xLow : Rat)
    let hy := 1 - ly
    let hx := 1 - lx
    hy * hx * maskAt m yLow xLow + hy * lx * maskAt m yLow xHigh +
      ly * hx * maskAt m yHigh xLow + ly * lx * maskAt m yHigh xHigh

/-- Modelled from the spec: `roi_align(gt_mask, padded_rois, mask_size, 1.0,
sampling_ratio=2)` applied to one mask and one ROI box (the operator itself lives
in `model.ops`, not under `src/`).  Following the spec's "bilinear interpolation
over a fixed sampling grid, ROI-align semantics": the ROI box (spatial scale 1)
is divided into a `maskSize × maskSize` grid of bins, each bin is sampled at
`2 × 2` bilinear sample points (sampling_ratio 2), and the samples are averaged. -/
def roiAlignOne (m : Grid) (b : Box) (maskSize : Nat) : Grid :=
  let x1 := b.1
  let y1 := b.2.1
  let x2 := b.2.2.1
  let y2 := b.2.2.2
  let roiW := rmax (x2 - x1) 1
  let roiH := rmax (y2 - y1) 1
  let binW := roiW / (maskSize : Rat)
  let binH := roiH / (maskSize : Rat)
  (List.range maskSize).map fun (ph : Nat) =>
    (List.range maskSize).map fun (pw : Nat) =>
      (((List.range 2).map fun (iy : Nat) =>
        (((List.range 2).map fun (ix : Nat) =>
          bilinearSample m (y1 + (ph : Rat) * binH + ((iy : Rat) + 1/2) * binH / 2)
            (x1 + (pw : Rat) * binW + ((ix : Rat) + 1/2) * binW / 2)).sum)).sum) / 4

/-- A constant `ms × ms` grid; `ones_like(pooled_mask) * same_cid` in the source
produces such a grid (the pooled mask is `mask_size × mask_size`). -/
def constGrid (ms : Nat) (v : Rat) : Grid := List.replicate ms (List.replicate ms v)

/-- rcnn_target.py line 67: `torch.where(matches >= 0, matches, zeros_like(matches))`
applied to one entry. -/
def clampMatch (m : Int) : Int := if 0 ≤ m then m else 0

/-- Per-image body of `MaskTargetGenerator.forward` (rcnn_target.py lines 75-93) for
one image: `padded_rois = cat([match, roi], -1)`; `pooled_mask = roi_align(...)`
(the match entry is the batch index into the image's `(M, 1, H, W)` stack of
ground-truth masks); then for `cid` in `1..num_classes` the source appends the
unchanged `pooled_mask` to `mask_target` and `ones_like(pooled_mask) * (cls_target
== cid)` to `mask_mask`, stacks to `(C, N, MS, MS)` and permutes to
`(N, C, MS, MS)`.  We build the permuted `(N, C, ...)` layout directly: row `n`
of the targets is `num_classes` copies of `pooled_mask[n]`, row `n` of the
validity masks has channel `c` equal to the constant grid `1` exactly when
`cls_target[n] = c + 1`. -/
def maskTargetImg (numClasses maskSize : Nat) (gtMask : List Grid)
    (roi : List Box) (mt : List Int) (ct : List Int) :
    List (List Grid) × List (List Grid) :=
  let padded := mt.zip roi
  let pooled : List Grid := padded.map fun p => roiAlignOne (gtMask.getD p.1.toNat []) p.2 maskSize
  let pairs := pooled.zip ct
  let targets := pairs.map fun q => List.replicate numClasses q.1
  let masks := pairs.map fun q =>
    (List.range numClasses).map fun (c : Nat) => constGrid maskSize (if q.2 = (c : Int) + 1 then 1 else 0)
  (targets, masks)

/-- `MaskTargetGenerator.forward` (rcnn_target.py lines 34-98).  Inputs are the
per-image slices of the `(B, N, 4)` rois, `(B, M, H, W)` ground-truth masks,
`(B, N)` matches and `(B, N)` class targets; the source's `_split` helper splits
the batch axis into `num_images` single-slice chunks and squeezes them, which for
the documented `B = num_images` case yields exactly these per-image lists.  Line
67 clamps negative matches to 0 before the split; the per-image loop then zips
the four lists, and the results are stacked back into `(B, N, C, MS, MS)`. -/
def maskTargetForward (numClasses maskSize : Nat)
    (rois : List (List Box)) (gtMasks : List (List Grid))
    (matchess : List (List Int)) (clsTargets : List (List Int)) :
    List (List (List Grid)) × List (List (List Grid)) :=
  let matches2 := matchess.map fun row => row.map clampMatch
  let zipped := rois.zip (gtMasks.zip (matches2.zip clsTargets))
  let per := zipped.map fun q => maskTargetImg numClasses maskSize q.2.1 q.1 q.2.2.1 q.2.2.2
  (per.map Prod.fst, per.map Prod.snd)

/-- Access the `(b, n, c)` grid of a `(B, N, C, MS, MS)` output tensor. -/
def entryAt (t : List (List (List Grid))) (b n c : Nat) : Grid :=
  ((t.getD b []).getD n []).getD c []

/-- The ROI-aligned pooled mask of ROI `n` of one image: the ground-truth mask
selected by the (clamped) match entry, resampled through the modelled ROI-align
into a `maskSize × maskSize` grid over the ROI box. -/
def pooledMaskAt (maskSize : Nat) (gtMask : List Grid) (roi : List Box)
    (mt : List Int) (n : Nat) : Grid :=
  roiAlignOne (gtMask.getD (clampMatch (mt.getD n 0)).toNat []) (roi.getD n (0, 0, 0, 0)) maskSize

/-- Elementwise product of two grids. -/
def mulGrid (a b : Grid) : Grid := List.zipWith (fun r s => List.zipWith (fun x y => x * y) r s) a b

/-- Elementwise product of the `(B, N, C, MS, MS)` mask targets with the equal-shaped
validity masks — the downstream use of the two outputs (the validity mask
multiplies the loss so only the active channel contributes). -/
def maskedTargets (t m : List (List (List Grid))) : List (List (List Grid)) :=
  List.zipWith (fun a b => List.zipWith (fun c d => List.zipWith mulGrid c d) a b) t m

/-- Well-formedness of a `MaskTargetGenerator.forward` input batch: `B` images and
`N` ROI slots in each of the per-ROI inputs (the number of ground-truth masks per
image is unconstrained). -/
def mtgWellFormed (B N : Nat) (rois : List (List Box)) (gtMasks : List (List Grid))
    (matchess : List (List Int)) (clsTargets : List (List Int)) : Prop :=
  rois.length = B ∧ gtMasks.length = B ∧ matchess.length = B ∧ clsTargets.length = B ∧
    (∀ r ∈ rois, r.length = N) ∧ (∀ m ∈ matchess, m.length = N) ∧ (∀ c ∈ clsTargets, c.length = N)

instance (B N : Nat) (rois : List (List Box)) (gtMasks : List (List Grid))
    (matchess : List (List Int)) (clsTargets : List (List Int)) :
    Decidable (mtgWellFormed B N rois gtMasks matchess clsTargets) := by
  unfold mtgWellFormed; infer_instance

/-- Shape predicate for a `(B, N, C, MS, MS)` output tensor. -/
def shapeBNC (t : List (List (List Grid))) (B N C MS : Nat) : Prop :=
  t.length = B ∧ ∀ img ∈ t, img.length = N ∧
    ∀ r ∈ img, r.length = C ∧ ∀ g ∈ r, g.length = MS ∧ ∀ row ∈ g, row.length = MS

instance (t : List (List (List Grid))) (B N C MS : Nat) :
    Decidable (shapeBNC t B N C MS) := by
  unfold shapeBNC; infer_instance

/-! ### Helper lemmas for the mask target embedding -/

lemma clampMatch_idem (m : Int) : clampMatch (clampMatch m) = clampMatch m := by
  unfold clampMatch; split <;> simp [*]

lemma roiAlignOne_length (m : Grid) (b : Box) (MS : Nat) : (roiAlignOne m b MS).length = MS := by
  simp [roiAlignOne]

lemma roiAlignOne_rows (m : Grid) (b : Box) (MS : Nat) :
    ∀ r ∈ roiAlignOne m b MS, r.length = MS := by
  intro r hr
  simp only [roiAlignOne, List.mem_map] at hr
  obtain ⟨ph, _, rfl⟩ := hr
  simp

lemma constGrid_length (ms : Nat) (v : Rat) : (constGrid ms v).length = ms := by
  simp [constGrid]

lemma constGrid_rows (ms : Nat) (v : Rat) : ∀ r ∈ constGrid ms v, r.length = ms := by
  intro r hr
  simp only [constGrid, List.mem_replicate] at hr
  simp [hr.2]

lemma getD_map_range {α : Type} (C c : Nat) (hc : c < C) (g : Nat → α) (d : α) :
    ((List.range C).map g).getD c d = g c := by
  rw [List.getD_eq_getElem _ _ (by simpa using hc)]
  simp

lemma getD_map_of_lt {α β : Type} (f : α → β) (l : List α) (n : Nat) (h : n < l.length) (d : β) :
    (l.map f).getD n d = f (l[n]) := by
  rw [List.getD_eq_getElem _ _ (by simpa using h)]
  simp

lemma maskTargetImg_fst_getD (C MS : Nat) (gm : List Grid) (roi : List Box) (mt ct : List Int)
    (n : Nat) (hn1 : n < mt.length) (hn2 : n < roi.length) (hn3 : n < ct.length) :
    (maskTargetImg C MS gm roi mt ct).1.getD n [] =
      List.replicate C (roiAlignOne (gm.getD (mt.getD n 0).toNat []) (roi.getD n (0, 0, 0, 0)) MS) := by
  unfold maskTargetImg
  have hpad : n < (mt.zip roi).length := by simp [List.length_zip]; omega
  have hpool : n < ((mt.zip roi).map fun p =>
      roiAlignOne (gm.getD p.1.toNat []) p.2 MS).length := by simpa using hpad
  have hpair : n < (((mt.zip roi).map fun p =>
      roiAlignOne (gm.getD p.1.toNat []) p.2 MS).zip ct).length := by
    simp [List.length_zip]; omega
  rw [List.getD_eq_getElem _ _ (by simpa using hpair)]
  rw [List.getD_eq_getElem _ _ hn1, List.getD_eq_getElem _ _ hn2]
  simp [List.getElem_zip, List.getElem_map]

lemma maskTargetImg_snd_getD (C MS : Nat) (gm : List Grid) (roi : List Box) (mt ct : List Int)
    (n c : Nat) (hn1 : n < mt.length) (hn2 : n < roi.length) (hn3 : n < ct.length) (hc : c < C) :
    ((maskTargetImg C MS gm roi mt ct).2.getD n []).getD c [] =
      constGrid MS (if ct.getD n 0 = (c : Int) + 1 then 1 else 0) := by
  have he : (maskTargetImg C MS gm roi mt ct).2 = (((mt.zip roi).map fun p =>
      roiAlignOne (gm.getD p.1.toNat []) p.2 MS).zip ct).map
      (fun q => (List.range C).map fun (k : Nat) =>
        constGrid MS (if q.2 = (k : Int) + 1 then 1 else 0)) := rfl
  have hpair : n < (((mt.zip roi).map fun p =>
      roiAlignOne (gm.getD p.1.toNat []) p.2 MS).zip ct).length := by
    simp [List.length_zip]; omega
  rw [he, getD_map_of_lt _ _ n hpair, getD_map_range C c hc, List.getD_eq_getElem _ _ hn3]
  simp [List.getElem_zip]

lemma maskTargetForward_getD (C MS : Nat) (rois : List (List Box)) (gts : List (List Grid))
    (ms cts : List (List Int)) (b : Nat)
    (h1 : b < rois.length) (h2 : b < gts.length) (h3 : b < ms.length) (h4 : b < cts.length) :
    (maskTargetForward C MS rois gts ms cts).1.getD b [] =
      (maskTargetImg C MS (gts.getD b []) (rois.getD b []) ((ms.getD b []).map clampMatch) (cts.getD b [])).1 ∧
    (maskTargetForward C MS rois gts ms cts).2.getD b [] =
      (maskTargetImg C MS (gts.getD b []) (rois.getD b []) ((ms.getD b []).map clampMatch) (cts.getD b [])).2 := by
  unfold maskTargetForward
  have hz : b < (rois.zip (gts.zip ((ms.map fun row => row.map clampMatch).zip cts))).length := by
    simp [List.length_zip]; omega
  constructor <;>
  · rw [List.getD_eq_getElem _ _ (by simpa using hz)]
    rw [List.getD_eq_getElem _ _ h1, List.getD_eq_getElem _ _ h2,
      List.getD_eq_getElem _ _ h3, List.getD_eq_getElem _ _ h4]
    simp [List.getElem_zip, List.getElem_map]

lemma getD_replicate_of_lt {α : Type} (C c : Nat) (hc : c < C) (x : α) (d : α) :
    (List.replicate C x).getD c d = x := by
  rw [List.getD_eq_getElem _ _ (by simpa using hc)]
  simp

lemma getD_zipWith_of_lt {α β γ : Type} (f : α → β → γ) (l1 : List α) (l2 : List β)
    (n : Nat) (h1 : n < l1.length) (h2 : n < l2.length) (d1 : α) (d2 : β) (d3 : γ) :
    (List.zipWith f l1 l2).getD n d3 = f (l1.getD n d1) (l2.getD n d2) := by
  rw [List.getD_eq_getElem _ _ (by simp [List.length_zipWith]; omega),
    List.getD_eq_getElem _ _ h1, List.getD_eq_getElem _ _ h2]
  simp

lemma maskTargetImg_snd_getD_row (C MS : Nat) (gm : List Grid) (roi : List Box) (mt ct : List Int)
    (n : Nat) (hn1 : n < mt.length) (hn2 : n < roi.length) (hn3 : n < ct.length) :
    (maskTargetImg C MS gm roi mt ct).2.getD n [] =
      (List.range C).map fun (k : Nat) =>
        constGrid MS (if ct.getD n 0 = (k : Int) + 1 then 1 else 0) := by
  have he : (maskTargetImg C MS gm roi mt ct).2 = (((mt.zip roi).map fun p =>
      roiAlignOne (gm.getD p.1.toNat []) p.2 MS).zip ct).map
      (fun q => (List.range C).map fun (k : Nat) =>
        constGrid MS (if q.2 = (k : Int) + 1 then 1 else 0)) := rfl
  have hpair : n < (((mt.zip roi).map fun p =>
      roiAlignOne (gm.getD p.1.toNat []) p.2 MS).zip ct).length := by
    simp [List.length_zip]; omega
  rw [he, getD_map_of_lt _ _ n hpair, List.getD_eq_getElem _ _ hn3]
  simp [List.getElem_zip]

lemma maskTargetImg_length1 (C MS : Nat) (gm : List Grid) (roi : List Box) (mt ct : List Int) :
    (maskTargetImg C MS gm roi mt ct).1.length = min (min mt.length roi.length) ct.length := by
  simp [maskTargetImg, List.length_zip]

lemma maskTargetImg_length2 (C MS : Nat) (gm : List Grid) (roi : List Box) (mt ct : List Int) :
    (maskTargetImg C MS gm roi mt ct).2.length = min (min mt.length roi.length) ct.length := by
  simp [maskTargetImg, List.length_zip]

lemma maskTargetForward_length1 (C MS : Nat) (rois : List (List Box)) (gts : List (List Grid))
    (ms cts : List (List Int)) :
    (maskTargetForward C MS rois gts ms cts).1.length =
      min rois.length (min gts.length (min ms.length cts.length)) := by
  simp [maskTargetForward, List.length_zip]

lemma maskTargetForward_length2 (C MS : Nat) (rois : List (List Box)) (gts : List (List Grid))
    (ms cts : List (List Int)) :
    (maskTargetForward C MS rois gts ms cts).2.length =
      min rois.length (min gts.length (min ms.length cts.length)) := by
  simp [maskTargetForward, List.length_zip]

lemma zipWith_mul_replicate_zero (r : List Rat) (k : Nat) (h : r.length = k) :
    List.zipWith (fun x y => x * y) r (List.replicate k 0) = List.replicate k 0 := by
  induction r generalizing k with
  | nil => cases k with
    | zero => rfl
    | succ k => simp at h
  | cons a t ih => cases k with
    | zero => simp at h
    | succ k => simp [List.replicate_succ, ih k (by simpa using h)]

lemma zipWith_mulrows_zero (g : Grid) (rows cols : Nat) (h1 : g.length = rows)
    (h2 : ∀ r ∈ g, r.length = cols) :
    List.zipWith (fun r s => List.zipWith (fun x y => x * y) r s) g
      (List.replicate rows (List.replicate cols 0)) =
      List.replicate rows (List.replicate cols 0) := by
  induction g generalizing rows with
  | nil => cases rows with
    | zero => rfl
    | succ k => simp at h1
  | cons r t ih => cases rows with
    | zero => simp at h1
    | succ k =>
      rw [List.replicate_succ]
      simp only [List.zipWith_cons_cons]
      rw [zipWith_mul_replicate_zero r cols (h2 r (by simp)),
        ih k (by simpa using h1)]
      intro s hs
      exact h2 s (by simp [hs])

lemma mulGrid_zero (g : Grid) (MS : Nat) (h1 : g.length = MS) (h2 : ∀ r ∈ g, r.length = MS) :
    mulGrid g (constGrid MS 0) = constGrid MS 0 :=
  zipWith_mulrows_zero g MS MS h1 h2

lemma maskTargetImg_shape (C MS N : Nat) (gm : List Grid) (roi : List Box) (mt ct : List Int)
    (hroi : roi.length = N) (hmt : mt.length = N) (hct : ct.length = N) :
    ((maskTargetImg C MS gm roi mt ct).1.length = N ∧
      ∀ row ∈ (maskTargetImg C MS gm roi mt ct).1, row.length = C ∧
        ∀ g ∈ row, g.length = MS ∧ ∀ r ∈ g, r.length = MS) ∧
    ((maskTargetImg C MS gm roi mt ct).2.length = N ∧
      ∀ row ∈ (maskTargetImg C MS gm roi mt ct).2, row.length = C ∧
        ∀ g ∈ row, g.length = MS ∧ ∀ r ∈ g, r.length = MS) := by
  refine ⟨⟨?_, ?_⟩, ?_, ?_⟩
  · rw [maskTargetImg_length1]; omega
  · intro row hrow
    have he : (maskTargetImg C MS gm roi mt ct).1 = (((mt.zip roi).map fun p =>
        roiAlignOne (gm.getD p.1.toNat []) p.2 MS).zip ct).map
        (fun q => List.replicate C q.1) := rfl
    rw [he] at hrow
    obtain ⟨q, hq, rfl⟩ := List.mem_map.mp hrow
    obtain ⟨a, b2⟩ := q
    refine ⟨by simp, ?_⟩
    intro g hg
    rw [List.eq_of_mem_replicate hg]
    obtain ⟨p, hp, rfl⟩ := List.mem_map.mp (List.of_mem_zip hq).1
    exact ⟨roiAlignOne_length _ _ _, roiAlignOne_rows _ _ _⟩
  · rw [maskTargetImg_length2]; omega
  · intro row hrow
    have he : (maskTargetImg C MS gm roi mt ct).2 = (((mt.zip roi).map fun p =>
        roiAlignOne (gm.getD p.1.toNat []) p.2 MS).zip ct).map
        (fun q => (List.range C).map fun (k : Nat) =>
          constGrid MS (if q.2 = (k : Int) + 1 then 1 else 0)) := rfl
    rw [he] at hrow
    obtain ⟨q, hq, rfl⟩ := List.mem_map.mp hrow
    refine ⟨by simp, ?_⟩
    intro g hg
    obtain ⟨k, hk, rfl⟩ := List.mem_map.mp hg
    exact ⟨constGrid_length _ _, constGrid_rows _ _⟩

/-! ### Claim theorems for the Mask Target Generator -/

/-- C6: for each image `b`, ROI `n` and foreground class `c+1` (1-indexed, stored at
channel index `c`), the returned validity mask grid is the constant all-ones
`mask_size × mask_size` grid if the ROI's `cls_target` equals `c+1`, and the constant
all-zeros grid otherwise. -/
theorem validity_mask_marks_exactly_active_class
    (C MS : Nat) (rois : List (List Box)) (gts : List (List Grid)) (ms cts : List (List Int))
    (b n c : Nat)
    (hb1 : b < rois.length) (hb2 : b < gts.length) (hb3 : b < ms.length) (hb4 : b < cts.length)
    (hn1 : n < (ms.getD b []).length) (hn2 : n < (rois.getD b []).length)
    (hn3 : n < (cts.getD b []).length) (hc : c < C) :
    entryAt (maskTargetForward C MS rois gts ms cts).2 b n c =
      constGrid MS (if (cts.getD b []).getD n 0 = (c : Int) + 1 then 1 else 0) := by
  unfold entryAt
  rw [(maskTargetForward_getD C MS rois gts ms cts b hb1 hb2 hb3 hb4).2]
  exact maskTargetImg_snd_getD C MS _ _ _ _ n c (by simpa using hn1) hn2 hn3 hc

/-- Witness for the validity-mask theorem at a concrete input: one image, one ROI
`(0,0,1,1)`, one 1×1 ground-truth mask, `cls_target = 1`, two classes, mask size 1;
channel index 1 (class 2) of the validity mask is the zero grid. -/
theorem validity_mask_marks_exactly_active_class_witness :
    (0 < 1 ∧ 0 < 1 ∧ 1 < 2) ∧
      entryAt (maskTargetForward 2 1 [[((0 : Rat), 0, 1, 1)]] [[[[1]]]] [[0]] [[1]]).2 0 0 1 =
        constGrid 1 (if (([[(1 : Int)]] : List (List Int)).getD 0 []).getD 0 0 = (1 : Int) + 1 then 1 else 0) :=
  ⟨⟨Nat.one_pos, Nat.one_pos, Nat.one_lt_two⟩,
    validity_mask_marks_exactly_active_class 2 1 [[((0 : Rat), 0, 1, 1)]] [[[[1]]]] [[0]] [[1]]
      0 0 1 (by decide) (by decide) (by decide) (by decide)
      (by decide) (by decide) (by decide) (by decide)⟩

/-- C9: all `num_classes` channels of the returned mask_targets tensor for a given ROI
are identical copies of that ROI's ROI-aligned pooled mask (the target row is literally
`num_classes` replicas of the pooled mask); class selection is carried by the separately
returned validity mask, not by zeroing target channels. -/
theorem mask_target_channels_identical_copies
    (C MS : Nat) (rois : List (List Box)) (gts : List (List Grid)) (ms cts : List (List Int))
    (b n : Nat)
    (hb1 : b < rois.length) (hb2 : b < gts.length) (hb3 : b < ms.length) (hb4 : b < cts.length)
    (hn1 : n < (ms.getD b []).length) (hn2 : n < (rois.getD b []).length)
    (hn3 : n < (cts.getD b []).length) :
    ((maskTargetForward C MS rois gts ms cts).1.getD b []).getD n [] =
      List.replicate C (pooledMaskAt MS (gts.getD b []) (rois.getD b []) (ms.getD b []) n) := by
  rw [(maskTargetForward_getD C MS rois gts ms cts b hb1 hb2 hb3 hb4).1]
  rw [maskTargetImg_fst_getD C MS _ _ _ _ n (by simpa using hn1) hn2 hn3]
  unfold pooledMaskAt
  rw [getD_map_of_lt clampMatch _ n hn1 0, List.getD_eq_getElem _ _ hn1]

/-- Witness for the channel-replication theorem at a concrete input. -/
theorem mask_target_channels_identical_copies_witness :
    (0 < 1 ∧ 0 < 1) ∧
      ((maskTargetForward 2 1 [[((0 : Rat), 0, 1, 1)]] [[[[1]]]] [[0]] [[1]]).1.getD 0 []).getD 0 [] =
        List.replicate 2 (pooledMaskAt 1 (([[[[1]]]] : List (List Grid)).getD 0 [])
          (([[((0 : Rat), 0, 1, 1)]] : List (List Box)).getD 0 []) (([[0]] : List (List Int)).getD 0 []) 0) :=
  ⟨⟨Nat.one_pos, Nat.one_pos⟩,
    mask_target_channels_identical_copies 2 1 [[((0 : Rat), 0, 1, 1)]] [[[[1]]]] [[0]] [[1]] 0 0
      (by decide) (by decide) (by decide) (by decide) (by decide) (by decide) (by decide)⟩

/-- C7: `MaskTargetGenerator.forward` computes its outputs as if every negative entry of
the matches array were replaced by ground-truth index 0 while nonnegative entries are
used unchanged (pre-clamping the matches with `clampMatch` leaves the outputs
unchanged), and the (clamped) matches entry selects which ground-truth mask is
resampled for each ROI. -/
theorem matches_clamped_to_zero_and_select_mask
    (C MS : Nat) (rois : List (List Box)) (gts : List (List Grid)) (ms cts : List (List Int))
    (b n c : Nat)
    (hb1 : b < rois.length) (hb2 : b < gts.length) (hb3 : b < ms.length) (hb4 : b < cts.length)
    (hn1 : n < (ms.getD b []).length) (hn2 : n < (rois.getD b []).length)
    (hn3 : n < (cts.getD b []).length) (hc : c < C) :
    maskTargetForward C MS rois gts ms cts =
      maskTargetForward C MS rois gts (ms.map (List.map clampMatch)) cts ∧
    entryAt (maskTargetForward C MS rois gts ms cts).1 b n c =
      roiAlignOne ((gts.getD b []).getD (clampMatch ((ms.getD b []).getD n 0)).toNat [])
        ((rois.getD b []).getD n (0, 0, 0, 0)) MS := by
  constructor
  · unfold maskTargetForward
    simp [List.map_map, Function.comp_def, clampMatch_idem]
  · unfold entryAt
    rw [(maskTargetForward_getD C MS rois gts ms cts b hb1 hb2 hb3 hb4).1]
    rw [maskTargetImg_fst_getD C MS _ _ _ _ n (by simpa using hn1) hn2 hn3]
    rw [getD_replicate_of_lt C c hc]
    rw [getD_map_of_lt clampMatch _ n hn1 0, List.getD_eq_getElem _ _ hn1]

/-- Witness for the matches-clamping theorem at a concrete input with a negative match
entry `-1` (clamped to ground-truth index 0). -/
theorem matches_clamped_to_zero_and_select_mask_witness :
    (0 < 1 ∧ 1 < 2) ∧
      (maskTargetForward 2 1 [[((0 : Rat), 0, 1, 1)]] [[[[1]]]] [[-1]] [[1]] =
        maskTargetForward 2 1 [[((0 : Rat), 0, 1, 1)]] [[[[1]]]]
          (([[-1]] : List (List Int)).map (List.map clampMatch)) [[1]] ∧
      entryAt (maskTargetForward 2 1 [[((0 : Rat), 0, 1, 1)]] [[[[1]]]] [[-1]] [[1]]).1 0 0 1 =
        roiAlignOne ((([[[[1]]]] : List (List Grid)).getD 0 []).getD
            (clampMatch ((([[-1]] : List (List Int)).getD 0 []).getD 0 0)).toNat [])
          ((([[((0 : Rat), 0, 1, 1)]] : List (List Box)).getD 0 []).getD 0 (0, 0, 0, 0)) 1) :=
  ⟨⟨Nat.one_pos, Nat.one_lt_two⟩,
    matches_clamped_to_zero_and_select_mask 2 1 [[((0 : Rat), 0, 1, 1)]] [[[[1]]]] [[-1]] [[1]]
      0 0 1 (by decide) (by decide) (by decide) (by decide)
      (by decide) (by decide) (by decide) (by decide)⟩

/-- C8: for a batch of `B` images with `N` ROI slots per image, `C` foreground classes
and mask size `MS`, both returned tensors have shape `(B, N, C, MS, MS)`. -/
theorem mask_target_output_shapes
    (B N C MS : Nat) (rois : List (List Box)) (gts : List (List Grid)) (ms cts : List (List Int))
    (h : mtgWellFormed B N rois gts ms cts) :
    shapeBNC (maskTargetForward C MS rois gts ms cts).1 B N C MS ∧
      shapeBNC (maskTargetForward C MS rois gts ms cts).2 B N C MS := by
  obtain ⟨h1, h2, h3, h4, h5, h6, h7⟩ := h
  constructor
  · refine ⟨by rw [maskTargetForward_length1]; omega, ?_⟩
    intro img himg
    have he : (maskTargetForward C MS rois gts ms cts).1 =
        (rois.zip (gts.zip ((ms.map fun row => row.map clampMatch).zip cts))).map
          (fun q => (maskTargetImg C MS q.2.1 q.1 q.2.2.1 q.2.2.2).1) := by
      simp [maskTargetForward, List.map_map, Function.comp_def]
    rw [he] at himg
    obtain ⟨q, hq, rfl⟩ := List.mem_map.mp himg
    obtain ⟨r, q2⟩ := q
    obtain ⟨g, q3⟩ := q2
    obtain ⟨m2, ct⟩ := q3
    have hr : r ∈ rois := (List.of_mem_zip hq).1
    have hrest := (List.of_mem_zip hq).2
    have hm2 : m2 ∈ ms.map fun row => row.map clampMatch := (List.of_mem_zip (List.of_mem_zip hrest).2).1
    have hct : ct ∈ cts := (List.of_mem_zip (List.of_mem_zip hrest).2).2
    obtain ⟨m, hm, rfl⟩ := List.mem_map.mp hm2
    have := (maskTargetImg_shape C MS N (g) r (m.map clampMatch) ct
      (h5 r hr) (by simpa using h6 m hm) (h7 ct hct)).1
    exact this
  · refine ⟨by rw [maskTargetForward_length2]; omega, ?_⟩
    intro img himg
    have he : (maskTargetForward C MS rois gts ms cts).2 =
        (rois.zip (gts.zip ((ms.map fun row => row.map clampMatch).zip cts))).map
          (fun q => (maskTargetImg C MS q.2.1 q.1 q.2.2.1 q.2.2.2).2) := by
      simp [maskTargetForward, List.map_map, Function.comp_def]
    rw [he] at himg
    obtain ⟨q, hq, rfl⟩ := List.mem_map.mp himg
    obtain ⟨r, q2⟩ := q
    obtain ⟨g, q3⟩ := q2
    obtain ⟨m2, ct⟩ := q3
    have hr : r ∈ rois := (List.of_mem_zip hq).1
    have hrest := (List.of_mem_zip hq).2
    have hm2 : m2 ∈ ms.map fun row => row.map clampMatch := (List.of_mem_zip (List.of_mem_zip hrest).2).1
    have hct : ct ∈ cts := (List.of_mem_zip (List.of_mem_zip hrest).2).2
    obtain ⟨m, hm, rfl⟩ := List.mem_map.mp hm2
    exact (maskTargetImg_shape C MS N (g) r (m.map clampMatch) ct
      (h5 r hr) (by simpa using h6 m hm) (h7 ct hct)).2

/-- Witness for the output-shape theorem at a concrete input. -/
theorem mask_target_output_shapes_witness :
    mtgWellFormed 1 1 [[((0 : Rat), 0, 1, 1)]] [[[[1]]]] [[0]] [[1]] ∧
      (shapeBNC (maskTargetForward 2 1 [[((0 : Rat), 0, 1, 1)]] [[[[1]]]] [[0]] [[1]]).1 1 1 2 1 ∧
        shapeBNC (maskTargetForward 2 1 [[((0 : Rat), 0, 1, 1)]] [[[[1]]]] [[0]] [[1]]).2 1 1 2 1) :=
  ⟨by decide,
    mask_target_output_shapes 1 1 2 1 [[((0 : Rat), 0, 1, 1)]] [[[[1]]]] [[0]] [[1]] (by decide)⟩

/-- C1 counterexample: one image, one ROI `(0,0,1,1)`, one all-ones 1×1 ground-truth
mask, `cls_target = 1`, `num_classes = 2`, mask size 1.  The mask_targets channel at
index 1 — the channel of class 2, which is NOT the ROI's `cls_target` — is the all-ones
grid `[[1]]`, not zero: the source appends the unchanged pooled mask to every class
channel (rcnn_target.py line 88) and never zeroes it. -/
theorem mask_target_inactive_channel_nonzero :
    entryAt (maskTargetForward 2 1 [[((0 : Rat), 0, 1, 1)]] [[[[1]]]] [[0]] [[1]]).1 0 0 1 = [[1]] ∧
      ([[(1 : Rat)]] : Grid) ≠ constGrid 1 0 := by
  constructor
  · with_unfolding_all rfl
  · intro h
    have := congrArg (fun g : Grid => (g.getD 0 []).getD 0 0) h
    simp [constGrid] at this

/-- C1 (amended): the mask_targets tensor itself replicates the ROI's pooled mask into
every class channel; the zeroing of the channels other than the one equal to the ROI's
`cls_target` is carried by the returned validity mask, so that after elementwise
multiplication of the mask targets with the validity mask (which is how the loss
consumes the two outputs) every channel whose 1-indexed class id differs from the ROI's
`cls_target` is identically zero. -/
theorem masked_mask_target_off_class_zero
    (C MS : Nat) (rois : List (List Box)) (gts : List (List Grid)) (ms cts : List (List Int))
    (b n c : Nat)
    (hb1 : b < rois.length) (hb2 : b < gts.length) (hb3 : b < ms.length) (hb4 : b < cts.length)
    (hn1 : n < (ms.getD b []).length) (hn2 : n < (rois.getD b []).length)
    (hn3 : n < (cts.getD b []).length) (hc : c < C)
    (hct : (cts.getD b []).getD n 0 ≠ (c : Int) + 1) :
    entryAt (maskedTargets (maskTargetForward C MS rois gts ms cts).1
      (maskTargetForward C MS rois gts ms cts).2) b n c = constGrid MS 0 := by
  unfold entryAt maskedTargets
  have hb1' : b < (maskTargetForward C MS rois gts ms cts).1.length := by
    rw [maskTargetForward_length1]; omega
  have hb2' : b < (maskTargetForward C MS rois gts ms cts).2.length := by
    rw [maskTargetForward_length2]; omega
  rw [getD_zipWith_of_lt _ _ _ b hb1' hb2' [] [] []]
  rw [(maskTargetForward_getD C MS rois gts ms cts b hb1 hb2 hb3 hb4).1,
    (maskTargetForward_getD C MS rois gts ms cts b hb1 hb2 hb3 hb4).2]
  have hn1' : n < ((maskTargetImg C MS (gts.getD b []) (rois.getD b [])
      ((ms.getD b []).map clampMatch) (cts.getD b [])).1).length := by
    rw [maskTargetImg_length1, List.length_map]; omega
  have hn2' : n < ((maskTargetImg C MS (gts.getD b []) (rois.getD b [])
      ((ms.getD b []).map clampMatch) (cts.getD b [])).2).length := by
    rw [maskTargetImg_length2, List.length_map]; omega
  rw [getD_zipWith_of_lt _ _ _ n hn1' hn2' [] [] []]
  rw [maskTargetImg_fst_getD C MS _ _ _ _ n (by simpa using hn1) hn2 hn3,
    maskTargetImg_snd_getD_row C MS _ _ _ _ n (by simpa using hn1) hn2 hn3]
  rw [getD_zipWith_of_lt mulGrid _ _ c (by simpa using hc) (by simpa using hc) [] [] []]
  rw [getD_replicate_of_lt C c hc, getD_map_range C c hc]
  rw [if_neg hct]
  exact mulGrid_zero _ MS (roiAlignOne_length _ _ _) (roiAlignOne_rows _ _ _)

/-- Witness for the amended masked-target theorem at a concrete input (`cls_target = 1`,
channel index 1 is class 2 ≠ 1, so the masked product there is the zero grid). -/
theorem masked_mask_target_off_class_zero_witness :
    ((1 : Int) ≠ (1 : Int) + 1) ∧
      entryAt (maskedTargets (maskTargetForward 2 1 [[((0 : Rat), 0, 1, 1)]] [[[[1]]]] [[0]] [[1]]).1
        (maskTargetForward 2 1 [[((0 : Rat), 0, 1, 1)]] [[[[1]]]] [[0]] [[1]]).2) 0 0 1 =
        constGrid 1 0 :=
  ⟨by decide,
    masked_mask_target_off_class_zero 2 1 [[((0 : Rat), 0, 1, 1)]] [[[[1]]]] [[0]] [[1]] 0 0 1
      (by decide) (by decide) (by decide) (by decide)
      (by decide) (by decide) (by decide) (by decide) (by decide)⟩

/-! ## SSD configuration checks (ssd.py lines 100-120) -/

/-- The `ratios` constructor argument of `SSD.__init__`: a Python list holding either
plain aspect-ratio numbers (flat) or per-layer ratio lists (nested); ssd.py line 115
distinguishes the two with `isinstance(ratios[0], (tuple, list))`. -/
inductive Ratios where
  | flat (rs : List Rat)
  | nested (rss : List (List Rat))
deriving DecidableEq, Repr

/-- Top-level Python `len()` of a ratios list. -/
def ratiosLen : Ratios → Nat
  | .flat rs => rs.length
  | .nested rss => rss.length

/-- Kind of Python exception raised by a failed `SSD.__init__`. -/
inductive PyError where
  | assertionError
  | indexError
deriving DecidableEq, Repr

/-- `num_layers` as computed in ssd.py lines 108-111: `len(ratios)` when `network is
None`, else `len(features) + len(num_filters) - 1 + int(global_pool)` (Python integer
arithmetic — the value may be nonpositive). -/
def numLayersOf (network : Option Unit) (numFeatures numFilters : Nat)
    (globalPool : Bool) (ratios : Ratios) : Int :=
  match network with
  | none => (ratiosLen ratios : Int)
  | some _ => (numFeatures : Int) + (numFilters : Int) - 1 + (if globalPool then 1 else 0)

/-- The flat-ratios value after ssd.py line 116 (`ratios = ratios * num_layers`,
Python list repetition, empty for a nonpositive multiplier); a nested ratios list is
left unchanged. -/
def propagatedRatios (ratios : Ratios) (nl : Int) : Ratios :=
  match ratios with
  | .flat rs => .flat (List.flatten (List.replicate nl.toNat rs))
  | .nested rss => .nested rss

/-- ssd.py lines 115-116: `if not isinstance(ratios[0], (tuple, list)): ratios =
ratios * num_layers`.  Reading `ratios[0]` of an empty list raises `IndexError`. -/
def propagateRatios (ratios : Ratios) (nl : Int) : Except PyError Ratios :=
  match ratios with
  | .flat [] => .error .indexError
  | .nested [] => .error .indexError
  | .flat rs => .ok (.flat (List.flatten (List.replicate nl.toNat rs)))
  | .nested rss => .ok (.nested rss)

/-- Top-level length the ratios list has after the line-116 propagation (for a flat
list, Python `len(ratios * num_layers)`). -/
def propagatedLen (ratios : Ratios) (nl : Int) : Nat :=
  match ratios with
  | .flat rs => nl.toNat * rs.length
  | .nested rss => rss.length

/-- The configuration checks of `SSD.__init__` (ssd.py lines 108-120) in source order:
`assert len(sizes) == num_layers + 1`; `sizes = list(zip(sizes[:-1], sizes[1:]))`;
`assert isinstance(ratios, list)` (always true here — `Ratios` models a list); the
flat-ratios propagation of lines 115-116, which reads `ratios[0]`; `assert num_layers
== len(sizes) == len(ratios)`; `assert num_layers > 0`.  Returns the checked
`(num_layers, sizes-pairs, ratios)` configuration, or the Python error raised. -/
def ssdInitChecks (network : Option Unit) (numFeatures numFilters : Nat)
    (globalPool : Bool) (sizes : List Rat) (ratios : Ratios) :
    Except PyError (Int × List (Rat × Rat) × Ratios) :=
  let nl : Int := numLayersOf network numFeatures numFilters globalPool ratios
  if (sizes.length : Int) ≠ nl + 1 then .error .assertionError
  else
    let sizes2 := sizes.zip sizes.tail
    match propagateRatios ratios nl with
    | .error e => .error e
    | .ok ratios2 =>
      if ¬(nl = (sizes2.length : Int) ∧ sizes2.length = ratiosLen ratios2) then
        .error .assertionError
      else if ¬(0 < nl) then .error .assertionError
      else .ok (nl, sizes2, ratios2)

lemma propagateRatios_eq (ratios : Ratios) (nl : Int) :
    propagateRatios ratios nl = if ratiosLen ratios = 0 then .error .indexError
      else .ok (propagatedRatios ratios nl) := by
  cases ratios with
  | flat rs => cases rs <;> simp [propagateRatios, ratiosLen, propagatedRatios]
  | nested rss => cases rss <;> simp [propagateRatios, ratiosLen, propagatedRatios]

lemma ratiosLen_propagated (ratios : Ratios) (nl : Int) :
    ratiosLen (propagatedRatios ratios nl) = propagatedLen ratios nl := by
  cases ratios with
  | flat rs =>
    simp [propagatedRatios, ratiosLen, propagatedLen, List.length_flatten,
      List.map_replicate, List.sum_replicate, smul_eq_mul]
  | nested rss => rfl

/-- C3 counterexample: on the network path with 2 feature outputs, 1 appended filter
entry and no global pool, `num_layers = 2`; `sizes = [30, 60, 90]` has the required
length `num_layers + 1`, but an empty ratios list — an inconsistent configuration,
`len(ratios) = 0 ≠ num_layers` — raises `IndexError` at `ratios[0]` (ssd.py line 115)
before any length assertion about ratios can fire, so construction does not fail with
an `AssertionError` as claimed. -/
theorem ssd_init_empty_ratios_raises_index_error :
    ssdInitChecks (some ()) 2 1 false [30, 60, 90] (.nested []) = .error .indexError ∧
      numLayersOf (some ()) 2 1 false (.nested []) = 2 ∧
      (ratiosLen (Ratios.nested []) : Int) ≠ 2 := by
  refine ⟨by with_unfolding_all rfl, by with_unfolding_all rfl, by decide⟩

/-- C3 (amended): `SSD.__init__` fails fast at construction on every inconsistent
configuration — when `len(sizes) ≠ num_layers + 1`, when the length of ratios after
flat-list propagation is not `num_layers`, or when `num_layers ≤ 0` — and the failure
is an `AssertionError` in every such case except an empty ratios list, which raises
`IndexError` at `ratios[0]`.  It never silently truncates: for every consistent
configuration with `num_layers > 0` construction passes the checks and retains all
`num_layers` size pairs and `num_layers` ratio entries. -/
theorem ssd_init_fails_fast_never_truncates
    (network : Option Unit) (numFeatures numFilters : Nat) (globalPool : Bool)
    (sizes : List Rat) (ratios : Ratios) (nl : Int)
    (hnl : nl = numLayersOf network numFeatures numFilters globalPool ratios) :
    (((sizes.length : Int) ≠ nl + 1 ∨ (propagatedLen ratios nl : Int) ≠ nl ∨ nl ≤ 0) →
      ∀ cfg, ssdInitChecks network numFeatures numFilters globalPool sizes ratios ≠ .ok cfg) ∧
    ((ratiosLen ratios ≠ 0 ∧
        ((sizes.length : Int) ≠ nl + 1 ∨ (propagatedLen ratios nl : Int) ≠ nl ∨ nl ≤ 0)) →
      ssdInitChecks network numFeatures numFilters globalPool sizes ratios =
        .error .assertionError) ∧
    (((sizes.length : Int) = nl + 1 ∧ (propagatedLen ratios nl : Int) = nl ∧ 0 < nl) →
      ssdInitChecks network numFeatures numFilters globalPool sizes ratios =
        .ok (nl, sizes.zip sizes.tail, propagatedRatios ratios nl) ∧
        ((sizes.zip sizes.tail).length : Int) = nl ∧
        (ratiosLen (propagatedRatios ratios nl) : Int) = nl) := by
  have hz : (sizes.zip sizes.tail).length = sizes.length - 1 := by
    simp [List.length_zip, List.length_tail]
  by_cases hS : (sizes.length : Int) = nl + 1
  · by_cases hE : ratiosLen ratios = 0
    · have hlen0 : propagatedLen ratios nl = 0 := by
        cases ratios with
        | flat rs =>
          simp [ratiosLen] at hE
          simp [propagatedLen, hE]
        | nested rss =>
          simp [ratiosLen] at hE
          simp [propagatedLen, hE]
      have hres : ssdInitChecks network numFeatures numFilters globalPool sizes ratios =
          .error .indexError := by
        simp [ssdInitChecks, ← hnl, hS, propagateRatios_eq, hE]
      refine ⟨fun _ cfg => by rw [hres]; simp, fun h => absurd hE h.1, fun h => ?_⟩
      exfalso
      have h2 := h.2.1
      have h3 := h.2.2
      rw [hlen0] at h2
      omega
    · have hprop : propagateRatios ratios nl = .ok (propagatedRatios ratios nl) := by
        rw [propagateRatios_eq, if_neg hE]
      by_cases hM : nl = ((sizes.zip sizes.tail).length : Int) ∧
          (sizes.zip sizes.tail).length = ratiosLen (propagatedRatios ratios nl)
      · by_cases hPos : 0 < nl
        · have hres : ssdInitChecks network numFeatures numFilters globalPool sizes ratios =
              .ok (nl, sizes.zip sizes.tail, propagatedRatios ratios nl) := by
            simp only [ssdInitChecks, ← hnl]
            rw [if_neg (by omega), hprop]
            dsimp only
            rw [if_neg (not_not_intro hM), if_neg (not_not_intro hPos)]
          have hgood : (propagatedLen ratios nl : Int) = nl := by
            rw [← ratiosLen_propagated]
            omega
          refine ⟨fun hbad cfg => ?_, fun h => ?_, fun _ => ⟨hres, by omega, by rw [ratiosLen_propagated]; omega⟩⟩
          · exfalso
            rcases hbad with h | h | h
            · exact h hS
            · exact h hgood
            · omega
          · exfalso
            rcases h.2 with h | h | h
            · exact h hS
            · exact h hgood
            · omega
        · have hres : ssdInitChecks network numFeatures numFilters globalPool sizes ratios =
              .error .assertionError := by
            simp only [ssdInitChecks, ← hnl]
            rw [if_neg (by omega), hprop]
            dsimp only
            rw [if_neg (not_not_intro hM), if_pos hPos]
          exact ⟨fun _ cfg => by rw [hres]; simp, fun _ => hres, fun h => absurd h.2.2 hPos⟩
      · have hres : ssdInitChecks network numFeatures numFilters globalPool sizes ratios =
            .error .assertionError := by
          simp only [ssdInitChecks, ← hnl]
          rw [if_neg (by omega), hprop]
          dsimp only
          rw [if_pos (by tauto)]
        refine ⟨fun _ cfg => by rw [hres]; simp, fun _ => hres, fun h => ?_⟩
        exfalso
        apply hM
        have h2 := h.2.1
        rw [← ratiosLen_propagated] at h2
        constructor
        · omega
        · omega
  · have hres : ssdInitChecks network numFeatures numFilters globalPool sizes ratios =
        .error .assertionError := by
      simp only [ssdInitChecks, ← hnl]
      rw [if_pos (by omega)]
    exact ⟨fun _ cfg => by rw [hres]; simp, fun _ => hres, fun h => absurd h.1 hS⟩

/-- Witness for the amended construction-check theorem at a concrete consistent
configuration (`num_layers = 2`, three sizes, two nested ratio lists): construction
passes the checks with no truncation. -/
theorem ssd_init_fails_fast_never_truncates_witness :
    (((3 : Int) = 2 + 1 ∧ (propagatedLen (Ratios.nested [[1], [2]]) 2 : Int) = 2 ∧ (0 : Int) < 2) ∧
      (ssdInitChecks (some ()) 2 1 false [30, 60, 90] (.nested [[1], [2]]) =
        .ok (2, [(30, 60), (60, 90)], .nested [[1], [2]]) ∧ True)) := by
  constructor
  · exact ⟨by decide, by decide, by decide⟩
  constructor
  · have h := (ssd_init_fails_fast_never_truncates (some ()) 2 1 false [30, 60, 90]
      (.nested [[1], [2]]) 2 (by with_unfolding_all rfl)).2.2
      ⟨by with_unfolding_all decide, by decide, by decide⟩
    have h2 := h.1
    rw [h2]
    with_unfolding_all rfl
  · trivial

/-! ## SSD forward (ssd.py lines 213-248) and the modelled box_nms -/

/-- One row of the per-image detection tensor `(cls_id, score, x1, y1, x2, y2)`
(ssd.py line 237 concatenates class id, score and the decoded box along the last
axis). -/
structure DetRow where
  clsId : Rat
  score : Rat
  x1 : Rat
  y1 : Rat
  x2 : Rat
  y2 : Rat
deriving DecidableEq, Repr

/-- Modelled from the spec: Intersection-over-Union of two detection rows' boxes,
"area(intersection)/(area(a)+area(b)-area(intersection)), with degenerate (zero-area)
boxes yielding IoU 0" (`box_nms` lives in `model.module.nms`, not under `src/`). -/
def iouRows (a b : DetRow) : Rat :=
  let interW := rmax 0 (rmin a.x2 b.x2 - rmax a.x1 b.x1)
  let interH := rmax 0 (rmin a.y2 b.y2 - rmax a.y1 b.y1)
  let inter := interW * interH
  let areaA := (a.x2 - a.x1) * (a.y2 - a.y1)
  let areaB := (b.x2 - b.x1) * (b.y2 - b.y1)
  let uni := areaA + areaB - inter
  if uni = 0 then 0 else inter / uni

/-- Sort key for the NMS sort: score descending, ties broken by the original row index
(the spec requires a deterministic stable sort with this tie-break). -/
def rowBefore (a b : Nat × DetRow) : Bool :=
  decide (b.2.score < a.2.score) || (decide (a.2.score = b.2.score) && decide (a.1 ≤ b.1))

/-- Insertion step of the deterministic insertion sort over enumerated rows. -/
def insertRow (r : Nat × DetRow) : List (Nat × DetRow) → List (Nat × DetRow)
  | [] => [r]
  | s :: rest => if rowBefore r s then r :: s :: rest else s :: insertRow r rest

/-- Sort detection rows by score descending, ties broken by original index (spec §4.4:
"deterministic output for identical input — stable sort, fixed tie-break = original
index order"). -/
def sortRows (rows : List DetRow) : List DetRow :=
  (rows.enum.foldr insertRow []).map Prod.snd

/-- Greedy suppression pass of the modelled `box_nms` over the sorted rows.  Rows with
class id `< 0` are inert and retained in their slots; a row is kept if its IoU with
every already-kept row of the same class is below `overlap_thresh`, else it is
suppressed in place: class id forced to `-1`, score and coordinates unchanged
(spec §4.4). -/
def nmsLoop (thresh : Rat) : List DetRow → List DetRow → List DetRow
  | _, [] => []
  | kept, r :: rest =>
    if r.clsId < 0 then r :: nmsLoop thresh kept rest
    else if kept.any fun k => decide (k.clsId = r.clsId) && decide (thresh ≤ iouRows k r) then
      { r with clsId := -1 } :: nmsLoop thresh kept rest
    else r :: nmsLoop thresh (r :: kept) rest

/-- Modelled from the spec: `box_nms(result, overlap_thresh, topk, score_index=1,
coord_start=2, id_index=0)` from `model.module.nms` (not under `src/`), applied to one
image's rows.  Spec §4.4: sort candidates by score descending (stable, ties broken by
original index); if `topk ≥ 0` only the top-k sorted rows take part in suppression and
the rows beyond top-k are invalidated in place (class id `-1`), keeping the fixed row
count; `topk == -1` means no truncation; then greedily suppress per class.  The output
is the sorted row list with suppressed rows invalidated in their slots, not removed. -/
def boxNms (thresh : Rat) (topk : Int) (rows : List DetRow) : List DetRow :=
  let sorted := sortRows rows
  if 0 ≤ topk then
    nmsLoop thresh [] (sorted.take topk.toNat) ++
      (sorted.drop topk.toNat).map fun r => { r with clsId := -1 }
  else nmsLoop thresh [] sorted

/-- The per-image detection rows assembled by ssd.py lines 232-239: for each foreground
class index `i` a copy of all anchors' rows `(cls_ids[:, i], scores[:, i], bboxes)`,
concatenated over the classes. -/
def buildResult (numClasses : Nat) (clsIds scores : List (List Rat))
    (bboxes : List (Rat × Rat × Rat × Rat)) : List DetRow :=
  (List.range numClasses).flatMap fun (i : Nat) =>
    (clsIds.zip (scores.zip bboxes)).map fun q =>
      ⟨q.1.getD i 0, q.2.1.getD i 0, q.2.2.1, q.2.2.2.1, q.2.2.2.2.1, q.2.2.2.2.2⟩

/-- Operations performed by `SSD.forward`, one entry per tensor-operator call site in
ssd.py lines 213-248, in execution order. -/
inductive FwdOp where
  | featureExtract
  | classPredict
  | boxPredict
  | criterionLoss
  | anchorGenerate
  | boxDecode
  | clsDecode
  | nmsSuppress
  | postNmsNarrow
deriving DecidableEq, Repr

/-- Result of `SSD.forward`: the training pair `(regs_loss, cls_loss)` or the
evaluation triple `(ids, scores, bboxes)`. -/
inductive SSDOut where
  | losses (regsLoss clsLoss : Rat)
  | detections (ids : List Rat) (scores : List Rat) (boxes : List (Rat × Rat × Rat × Rat))
deriving DecidableEq, Repr

/-- The operations every evaluation-mode forward performs before the NMS branch. -/
def evalBaseOps : List FwdOp :=
  [.featureExtract, .classPredict, .boxPredict, .anchorGenerate, .boxDecode, .clsDecode]

/-- Split detection rows into the `(ids, scores, bboxes)` triple (ssd.py lines 245-247
narrow the last axis of the result tensor). -/
def mkDetections (rows : List DetRow) : SSDOut :=
  .detections (rows.map DetRow.clsId) (rows.map DetRow.score)
    (rows.map fun r => (r.x1, r.y1, r.x2, r.y2))

/-- `SSD.forward` (ssd.py lines 213-248) for a single image, with the collaborators the
spec declares external passed as function parameters: `criterion` (SSDMultiBoxLoss),
`anchorGenF` (anchor generation over the feature maps), `bboxDecoderF` and `clsDecoderF`
(the box and class decoders applied to the predictions); `clsPreds`/`boxPreds` stand for
the prediction tensors computed from the backbone features (lines 214-222, always
computed).  The first component traces which operators run.  Training mode (lines
223-226) returns the criterion's loss pair.  Evaluation mode generates anchors, decodes
boxes and classes, assembles the per-class result rows, and applies `box_nms` only when
`1 > nms_thresh > 0` (line 240), then keeps the first `post_nms` rows when
`post_nms > 0` (lines 243-244; torch `narrow` additionally requires `post_nms` to be at
most the row count — larger values error out and are outside this model). -/
def ssdForward {χ β τ : Type} (training : Bool) (numClasses : Nat) (nmsThresh : Rat)
    (nmsTopk postNms : Int)
    (criterion : χ → β → τ → Rat × Rat)
    (anchorGenF : Unit → List (Rat × Rat × Rat × Rat))
    (bboxDecoderF : β → List (Rat × Rat × Rat × Rat) → List (Rat × Rat × Rat × Rat))
    (clsDecoderF : χ → List (List Rat) × List (List Rat))
    (clsPreds : χ) (boxPreds : β) (targets : τ) : List FwdOp × SSDOut :=
  if training then
    ([.featureExtract, .classPredict, .boxPredict, .criterionLoss],
      .losses (criterion clsPreds boxPreds targets).1 (criterion clsPreds boxPreds targets).2)
  else
    let anchors := anchorGenF ()
    let bboxes := bboxDecoderF boxPreds anchors
    let result := buildResult numClasses (clsDecoderF clsPreds).1 (clsDecoderF clsPreds).2 bboxes
    if 1 > nmsThresh ∧ nmsThresh > 0 then
      let result2 := boxNms nmsThresh nmsTopk result
      if 0 < postNms then
        (evalBaseOps ++ [.nmsSuppress, .postNmsNarrow],
          mkDetections (result2.take postNms.toNat))
      else (evalBaseOps ++ [.nmsSuppress], mkDetections result2)
    else (evalBaseOps, mkDetections result)

lemma insertRow_length (r : Nat × DetRow) (l : List (Nat × DetRow)) :
    (insertRow r l).length = l.length + 1 := by
  induction l with
  | nil => rfl
  | cons s rest ih =>
    unfold insertRow
    split
    · rfl
    · simp [ih]

lemma foldr_insertRow_length (l : List (Nat × DetRow)) :
    (l.foldr insertRow []).length = l.length := by
  induction l with
  | nil => rfl
  | cons s rest ih => simp [List.foldr_cons, insertRow_length, ih]

lemma sortRows_length (rows : List DetRow) : (sortRows rows).length = rows.length := by
  simp [sortRows, foldr_insertRow_length]

lemma nmsLoop_length (thresh : Rat) (kept l : List DetRow) :
    (nmsLoop thresh kept l).length = l.length := by
  induction l generalizing kept with
  | nil => rfl
  | cons r rest ih =>
    unfold nmsLoop
    split
    · simp [ih]
    · split <;> simp [ih]

lemma boxNms_length (thresh : Rat) (topk : Int) (rows : List DetRow) :
    (boxNms thresh topk rows).length = rows.length := by
  unfold boxNms
  split
  · simp [nmsLoop_length, List.length_take, List.length_drop, sortRows_length]
    omega
  · simp [nmsLoop_length, sortRows_length]

lemma buildResult_length (C : Nat) (clsIds scores : List (List Rat))
    (bboxes : List (Rat × Rat × Rat × Rat)) :
    (buildResult C clsIds scores bboxes).length =
      C * min clsIds.length (min scores.length bboxes.length) := by
  induction C with
  | zero => simp [buildResult]
  | succ k ih =>
    unfold buildResult at ih ⊢
    rw [List.range_succ, List.flatMap_append, List.length_append, ih]
    simp [List.length_zip]
    ring

/-! ### Claim theorems for SSD.forward -/

/-- C5: in training mode (targets supplied) `SSD.forward` returns exactly the criterion's
pair `(regression loss, classification loss)` and performs no anchor generation, box
decoding, class decoding, or NMS — those operators run only on the evaluation path. -/
theorem ssd_training_returns_losses_no_decode {χ β τ : Type} (numClasses : Nat)
    (nmsThresh : Rat) (nmsTopk postNms : Int)
    (criterion : χ → β → τ → Rat × Rat)
    (anchorGenF : Unit → List (Rat × Rat × Rat × Rat))
    (bboxDecoderF : β → List (Rat × Rat × Rat × Rat) → List (Rat × Rat × Rat × Rat))
    (clsDecoderF : χ → List (List Rat) × List (List Rat))
    (clsPreds : χ) (boxPreds : β) (targets : τ) :
    ssdForward true numClasses nmsThresh nmsTopk postNms criterion anchorGenF bboxDecoderF
        clsDecoderF clsPreds boxPreds targets =
      ([.featureExtract, .classPredict, .boxPredict, .criterionLoss],
        .losses (criterion clsPreds boxPreds targets).1 (criterion clsPreds boxPreds targets).2) ∧
    FwdOp.anchorGenerate ∉ (ssdForward true numClasses nmsThresh nmsTopk postNms criterion
      anchorGenF bboxDecoderF clsDecoderF clsPreds boxPreds targets).1 ∧
    FwdOp.boxDecode ∉ (ssdForward true numClasses nmsThresh nmsTopk postNms criterion
      anchorGenF bboxDecoderF clsDecoderF clsPreds boxPreds targets).1 ∧
    FwdOp.clsDecode ∉ (ssdForward true numClasses nmsThresh nmsTopk postNms criterion
      anchorGenF bboxDecoderF clsDecoderF clsPreds boxPreds targets).1 ∧
    FwdOp.nmsSuppress ∉ (ssdForward true numClasses nmsThresh nmsTopk postNms criterion
      anchorGenF bboxDecoderF clsDecoderF clsPreds boxPreds targets).1 := by
  refine ⟨rfl, ?_, ?_, ?_, ?_⟩ <;> simp [ssdForward]

/-- C2: in evaluation mode with `nms_thresh` outside the open interval `(0, 1)`,
`SSD.forward` applies no NMS at all: the assembled decoded detections are returned
unchanged (no row suppressed, reordered or removed), and the NMS operator never runs. -/
theorem ssd_nms_disabled_pass_through {χ β τ : Type} (numClasses : Nat)
    (nmsThresh : Rat) (nmsTopk postNms : Int)
    (criterion : χ → β → τ → Rat × Rat)
    (anchorGenF : Unit → List (Rat × Rat × Rat × Rat))
    (bboxDecoderF : β → List (Rat × Rat × Rat × Rat) → List (Rat × Rat × Rat × Rat))
    (clsDecoderF : χ → List (List Rat) × List (List Rat))
    (clsPreds : χ) (boxPreds : β) (targets : τ)
    (h : nmsThresh ≤ 0 ∨ 1 ≤ nmsThresh) :
    ssdForward false numClasses nmsThresh nmsTopk postNms criterion anchorGenF bboxDecoderF
        clsDecoderF clsPreds boxPreds targets =
      (evalBaseOps, mkDetections (buildResult numClasses (clsDecoderF clsPreds).1
        (clsDecoderF clsPreds).2 (bboxDecoderF boxPreds (anchorGenF ())))) ∧
    FwdOp.nmsSuppress ∉ (ssdForward false numClasses nmsThresh nmsTopk postNms criterion
      anchorGenF bboxDecoderF clsDecoderF clsPreds boxPreds targets).1 := by
  have hc : ¬(1 > nmsThresh ∧ nmsThresh > 0) := by
    rcases h with h | h
    · exact fun hh => absurd hh.2 (not_lt.mpr h)
    · exact fun hh => absurd hh.1 (not_lt.mpr h)
  constructor
  · simp only [ssdForward, if_neg hc]
    rfl
  · simp only [ssdForward, if_neg hc]
    simp [evalBaseOps]

/-- Witness for the NMS-disabled pass-through theorem at a concrete input with
`nms_thresh = 2` (outside `(0, 1)`). -/
theorem ssd_nms_disabled_pass_through_witness :
    ((2 : Rat) ≤ 0 ∨ (1 : Rat) ≤ 2) ∧
      (ssdForward false 1 2 400 100 (fun (_ : Unit) (_ : Unit) (_ : Unit) => ((0 : Rat), (0 : Rat)))
          (fun _ => [((0 : Rat), 0, 2, 2)]) (fun _ a => a)
          (fun _ => ([[0]], [[9/10]])) () () () =
        (evalBaseOps, mkDetections (buildResult 1
          ((fun (_ : Unit) => (([[0]], [[9/10]]) : List (List Rat) × List (List Rat))) ()).1
          ((fun (_ : Unit) => (([[0]], [[9/10]]) : List (List Rat) × List (List Rat))) ()).2
          ((fun (_ : Unit) (a : List (Rat × Rat × Rat × Rat)) => a) ()
            ((fun (_ : Unit) => [((0 : Rat), 0, 2, 2)]) ()))))) ∧
      FwdOp.nmsSuppress ∉ (ssdForward false 1 2 400 100
        (fun (_ : Unit) (_ : Unit) (_ : Unit) => ((0 : Rat), (0 : Rat)))
        (fun _ => [((0 : Rat), 0, 2, 2)]) (fun _ a => a)
        (fun _ => ([[0]], [[9/10]])) () () ()).1 :=
  ⟨Or.inr (by norm_num),
    (ssd_nms_disabled_pass_through 1 2 400 100
      (fun (_ : Unit) (_ : Unit) (_ : Unit) => ((0 : Rat), (0 : Rat)))
      (fun _ => [((0 : Rat), 0, 2, 2)]) (fun _ a => a)
      (fun _ => ([[0]], [[9/10]])) () () () (Or.inr (by norm_num))).1,
    (ssd_nms_disabled_pass_through 1 2 400 100
      (fun (_ : Unit) (_ : Unit) (_ : Unit) => ((0 : Rat), (0 : Rat)))
      (fun _ => [((0 : Rat), 0, 2, 2)]) (fun _ a => a)
      (fun _ => ([[0]], [[9/10]])) () () () (Or.inr (by norm_num))).2⟩

/-- Projection: the ids component of an evaluation output. -/
def detIds : SSDOut → List Rat
  | .losses _ _ => []
  | .detections i _ _ => i

/-- Projection: the scores component of an evaluation output. -/
def detScores : SSDOut → List Rat
  | .losses _ _ => []
  | .detections _ s _ => s

/-- Projection: the boxes component of an evaluation output. -/
def detBoxes : SSDOut → List (Rat × Rat × Rat × Rat)
  | .losses _ _ => []
  | .detections _ _ b => b

/-- C10: in evaluation mode with `nms_thresh` outside the open interval `(0, 1)`,
`SSD.forward` also skips the `post_nms` truncation even when `post_nms > 0` (the narrow
sits inside the `1 > nms_thresh > 0` branch): all `num_classes * num_anchors` detection
rows are returned for the image and the narrow operator never runs. -/
theorem ssd_nms_disabled_skips_post_nms {χ β τ : Type} (numClasses n : Nat)
    (nmsThresh : Rat) (nmsTopk postNms : Int)
    (criterion : χ → β → τ → Rat × Rat)
    (anchorGenF : Unit → List (Rat × Rat × Rat × Rat))
    (bboxDecoderF : β → List (Rat × Rat × Rat × Rat) → List (Rat × Rat × Rat × Rat))
    (clsDecoderF : χ → List (List Rat) × List (List Rat))
    (clsPreds : χ) (boxPreds : β) (targets : τ)
    (h : nmsThresh ≤ 0 ∨ 1 ≤ nmsThresh) (hp : 0 < postNms)
    (h1 : (clsDecoderF clsPreds).1.length = n) (h2 : (clsDecoderF clsPreds).2.length = n)
    (h3 : (bboxDecoderF boxPreds (anchorGenF ())).length = n) :
    (detIds (ssdForward false numClasses nmsThresh nmsTopk postNms criterion anchorGenF
      bboxDecoderF clsDecoderF clsPreds boxPreds targets).2).length = numClasses * n ∧
    (detScores (ssdForward false numClasses nmsThresh nmsTopk postNms criterion anchorGenF
      bboxDecoderF clsDecoderF clsPreds boxPreds targets).2).length = numClasses * n ∧
    (detBoxes (ssdForward false numClasses nmsThresh nmsTopk postNms criterion anchorGenF
      bboxDecoderF clsDecoderF clsPreds boxPreds targets).2).length = numClasses * n ∧
    FwdOp.postNmsNarrow ∉ (ssdForward false numClasses nmsThresh nmsTopk postNms criterion
      anchorGenF bboxDecoderF clsDecoderF clsPreds boxPreds targets).1 := by
  have hc : ¬(1 > nmsThresh ∧ nmsThresh > 0) := by
    rcases h with h | h
    · exact fun hh => absurd hh.2 (not_lt.mpr h)
    · exact fun hh => absurd hh.1 (not_lt.mpr h)
  have hlen : (buildResult numClasses (clsDecoderF clsPreds).1 (clsDecoderF clsPreds).2
      (bboxDecoderF boxPreds (anchorGenF ()))).length = numClasses * n := by
    rw [buildResult_length, h1, h2, h3]
    simp
  refine ⟨?_, ?_, ?_, ?_⟩ <;> simp only [ssdForward, if_neg hc] <;>
    simp [mkDetections, detIds, detScores, detBoxes, hlen, evalBaseOps]

/-- Witness for the skipped-post-nms theorem at a concrete input (`nms_thresh = 2`,
`post_nms = 2 > 0`, one class, one anchor row). -/
theorem ssd_nms_disabled_skips_post_nms_witness :
    (((2 : Rat) ≤ 0 ∨ (1 : Rat) ≤ 2) ∧ (0 : Int) < 2) ∧
      (detIds (ssdForward false 1 2 400 2
        (fun (_ : Unit) (_ : Unit) (_ : Unit) => ((0 : Rat), (0 : Rat)))
        (fun _ => [((0 : Rat), 0, 2, 2)]) (fun _ a => a)
        (fun _ => ([[0]], [[9/10]])) () () ()).2).length = 1 * 1 :=
  ⟨⟨Or.inr (by norm_num), by decide⟩,
    (ssd_nms_disabled_skips_post_nms 1 1 2 400 2
      (fun (_ : Unit) (_ : Unit) (_ : Unit) => ((0 : Rat), (0 : Rat)))
      (fun _ => [((0 : Rat), 0, 2, 2)]) (fun _ a => a)
      (fun _ => ([[0]], [[9/10]])) () () ()
      (Or.inr (by norm_num)) (by decide) (by decide) (by decide) (by decide)).1⟩

/-- C4 counterexample: three detections of class 0 with scores 0.9, 0.8, 0.7; the two
top-scored rows share one box (IoU 1), the third box is disjoint; `nms_thresh = 1/2`,
`nms_topk = -1`, `post_nms = 2`.  NMS keeps rows 1 and 3 and suppresses row 2 in place
(class id forced to -1, slot retained); `result.narrow(1, 0, 2)` then returns the first
two rows of the NMS output — the top row AND the suppressed row — while the surviving
row with box `(4,4,6,6)` and score 0.7 is discarded.  The returned rows are therefore
not "the top post_nms surviving rows": a non-surviving (suppressed, id −1) row is
returned and a surviving row is dropped. -/
theorem ssd_post_nms_keeps_suppressed_slot :
    ssdForward false 1 (1/2) (-1) 2
        (fun (_ : Unit) (_ : Unit) (_ : Unit) => ((0 : Rat), (0 : Rat)))
        (fun _ => [((0 : Rat), 0, 2, 2), ((0 : Rat), 0, 2, 2), ((4 : Rat), 4, 6, 6)])
        (fun _ a => a)
        (fun _ => ([[0], [0], [0]], [[9/10], [8/10], [7/10]])) () () () =
      (evalBaseOps ++ [.nmsSuppress, .postNmsNarrow],
        .detections [0, -1] [9/10, 4/5] [((0 : Rat), 0, 2, 2), ((0 : Rat), 0, 2, 2)]) ∧
      ((-1 : Rat)) ∈ ([0, -1] : List Rat) ∧
      (((4 : Rat), (4 : Rat), (6 : Rat), (6 : Rat))) ∉
        ([((0 : Rat), 0, 2, 2), ((0 : Rat), 0, 2, 2)] : List (Rat × Rat × Rat × Rat)) := by
  refine ⟨by with_unfolding_all rfl, by decide, by with_unfolding_all decide⟩

/-- C4 (amended): in evaluation mode with NMS enabled (`0 < nms_thresh < 1`), if
`post_nms > 0` then exactly the first `post_nms` rows of the per-image `box_nms` output
are returned (that output is the score-descending sorted row list with suppressed rows
invalidated in place, so the returned rows are the top `post_nms` rows by score of ALL
candidate rows, suppressed ones included — not merely the surviving ones) and the rest
are discarded; if `post_nms == -1` every row of the NMS output is kept, and the NMS
output always retains the full row count (suppression invalidates in place, it never
removes rows). -/
theorem ssd_post_nms_narrow_first_rows {χ β τ : Type} (numClasses : Nat)
    (nmsThresh : Rat) (nmsTopk postNms : Int)
    (criterion : χ → β → τ → Rat × Rat)
    (anchorGenF : Unit → List (Rat × Rat × Rat × Rat))
    (bboxDecoderF : β → List (Rat × Rat × Rat × Rat) → List (Rat × Rat × Rat × Rat))
    (clsDecoderF : χ → List (List Rat) × List (List Rat))
    (clsPreds : χ) (boxPreds : β) (targets : τ)
    (hth : 0 < nmsThresh ∧ nmsThresh < 1) :
    (0 < postNms →
      ssdForward false numClasses nmsThresh nmsTopk postNms criterion anchorGenF
          bboxDecoderF clsDecoderF clsPreds boxPreds targets =
        (evalBaseOps ++ [.nmsSuppress, .postNmsNarrow],
          mkDetections ((boxNms nmsThresh nmsTopk (buildResult numClasses
            (clsDecoderF clsPreds).1 (clsDecoderF clsPreds).2
            (bboxDecoderF boxPreds (anchorGenF ())))).take postNms.toNat))) ∧
    (postNms = -1 →
      ssdForward false numClasses nmsThresh nmsTopk postNms criterion anchorGenF
          bboxDecoderF clsDecoderF clsPreds boxPreds targets =
        (evalBaseOps ++ [.nmsSuppress],
          mkDetections (boxNms nmsThresh nmsTopk (buildResult numClasses
            (clsDecoderF clsPreds).1 (clsDecoderF clsPreds).2
            (bboxDecoderF boxPreds (anchorGenF ())))))) ∧
    (boxNms nmsThresh nmsTopk (buildResult numClasses (clsDecoderF clsPreds).1
        (clsDecoderF clsPreds).2 (bboxDecoderF boxPreds (anchorGenF ())))).length =
      (buildResult numClasses (clsDecoderF clsPreds).1 (clsDecoderF clsPreds).2
        (bboxDecoderF boxPreds (anchorGenF ()))).length := by
  have hc : 1 > nmsThresh ∧ nmsThresh > 0 := ⟨hth.2, hth.1⟩
  refine ⟨fun hp => ?_, fun hm => ?_, boxNms_length _ _ _⟩
  · simp only [ssdForward, if_pos hc, if_pos hp]
    simp
  · subst hm
    simp only [ssdForward, if_pos hc]
    norm_num

/-- Witness for the amended post-nms theorem at the counterexample input. -/
theorem ssd_post_nms_narrow_first_rows_witness :
    ((0 : Rat) < 1/2 ∧ (1 : Rat)/2 < 1) ∧
      ((0 : Int) < 2 →
        ssdForward false 1 (1/2) (-1) 2
            (fun (_ : Unit) (_ : Unit) (_ : Unit) => ((0 : Rat), (0 : Rat)))
            (fun _ => [((0 : Rat), 0, 2, 2), ((0 : Rat), 0, 2, 2), ((4 : Rat), 4, 6, 6)])
            (fun _ a => a)
            (fun _ => ([[0], [0], [0]], [[9/10], [8/10], [7/10]])) () () () =
          (evalBaseOps ++ [.nmsSuppress, .postNmsNarrow],
            mkDetections ((boxNms (1/2) (-1) (buildResult 1
              ((fun (_ : Unit) => (([[0], [0], [0]], [[9/10], [8/10], [7/10]]) :
                List (List Rat) × List (List Rat))) ()).1
              ((fun (_ : Unit) => (([[0], [0], [0]], [[9/10], [8/10], [7/10]]) :
                List (List Rat) × List (List Rat))) ()).2
              ((fun (_ : Unit) (a : List (Rat × Rat × Rat × Rat)) => a) ()
                ((fun (_ : Unit) =>
                  [((0 : Rat), 0, 2, 2), ((0 : Rat), 0, 2, 2), ((4 : Rat), 4, 6, 6)]) ())))).take
              (2 : Int).toNat))) :=
  ⟨⟨by norm_num, by norm_num⟩,
    (ssd_post_nms_narrow_first_rows 1 (1/2) (-1) 2
      (fun (_ : Unit) (_ : Unit) (_ : Unit) => ((0 : Rat), (0 : Rat)))
      (fun _ => [((0 : Rat), 0, 2, 2), ((0 : Rat), 0, 2, 2), ((4 : Rat), 4, 6, 6)])
      (fun _ a => a)
      (fun _ => ([[0], [0], [0]], [[9/10], [8/10], [7/10]])) () () ()
      ⟨by norm_num, by norm_num⟩).1⟩
